import Mathlib

/-!
Shallow embedding of `src/btc_1h_signal_bot.py`, a BTC/USDT hourly signal
bot.  Python floats are modelled as exact rationals (ℚ), Python `None` as
`Option.none`, and raised exceptions as `Except.error`.  Network replies
(the HTTP layer) enter each fetch function as an explicit parameter of
type `Except`, carrying either the parsed JSON payload or the network
failure the request would have raised.  The script keeps no state between
poll ticks — `check_signals` reads and writes no module-level variable
other than configuration constants — so one tick is a pure function of
its inputs.
-/

namespace SignalBot

/-- Exception kinds observable in the script's control flow: network /
HTTP failures raised by `requests`, unparseable payloads, Python's
`IndexError` (from `candles[-1]` on an empty list) and `TypeError`
(from formatting `None` with a float format spec). -/
inductive PyError where
  | networkError
  | dataFormatError
  | indexError
  | typeError
deriving DecidableEq

/-- One OHLCV candle as the script builds it: a dict with keys
`time, open, high, low, close, vol`.  The `open` key is named `opn`
because `open` is a Lean keyword. -/
structure Candle where
  time : Int
  opn : ℚ
  high : ℚ
  low : ℚ
  close : ℚ
  vol : ℚ
deriving DecidableEq

/-- `LOOKBACK = 24` from the script. -/
def LOOKBACK : Nat := 24

/-- `VOL_SPIKE_MULT = 1.8` from the script. -/
def VOL_SPIKE_MULT : ℚ := 9 / 5

/-- One row of the Binance klines reply: `x[0]` is an open time in
milliseconds; `x[1]..x[5]` parse to open/high/low/close/volume floats. -/
structure BinanceRow where
  t_ms : Int
  o : ℚ
  h : ℚ
  l : ℚ
  c : ℚ
  v : ℚ
deriving DecidableEq

/-- One entry of Bybit's `result.list`: fields `start` (used verbatim via
`int(x["start"])`), `open`, `high`, `low`, `close`, `volume`. -/
structure BybitRow where
  start : Int
  o : ℚ
  h : ℚ
  l : ℚ
  c : ℚ
  v : ℚ
deriving DecidableEq

/-- `fetch_binance`: the HTTP reply arrives as the parameter; on success
the rows are mapped to candles with `"time": int(x[0]) // 1000` (floor
division, hence `Int.fdiv`) and the float fields copied.  No length or
shape validation is performed on the parsed rows. -/
def fetch_binance (reply : Except PyError (List BinanceRow)) :
    Except PyError (List Candle) :=
  reply.map (fun j => j.map (fun x =>
    { time := Int.fdiv x.t_ms 1000, opn := x.o, high := x.h,
      low := x.l, close := x.c, vol := x.v }))

/-- `fetch_bybit`: Bybit returns newest first, so the script iterates
`reversed(j)`; `"time": int(x["start"])` is used verbatim.  No length or
shape validation is performed on the parsed rows. -/
def fetch_bybit (reply : Except PyError (List BybitRow)) :
    Except PyError (List Candle) :=
  reply.map (fun j => j.reverse.map (fun x =>
    { time := x.start, opn := x.o, high := x.h,
      low := x.l, close := x.c, vol := x.v }))

/-- Total volume of a window: the `tot_vol` accumulator of `get_vwap`. -/
def total_vol (candles : List Candle) : ℚ :=
  (candles.map (·.vol)).sum

/-- The `tot_vp` accumulator of `get_vwap`: sum of typical price
`(high+low+close)/3` times volume. -/
def total_vp (candles : List Candle) : ℚ :=
  (candles.map (fun c => (c.high + c.low + c.close) / 3 * c.vol)).sum

/-- `get_vwap`: returns `tot_vp / tot_vol` when `tot_vol` is truthy
(nonzero), else Python's `None`. -/
def get_vwap (candles : List Candle) : Option ℚ :=
  if total_vol candles = 0 then none
  else some (total_vp candles / total_vol candles)

/-- `get_orderflow_snapshot`: the order-book HTTP reply arrives as the
parameter, a (bids, asks) pair of `[price, size]` lists on success.  Any
exception inside the `try` block (including the network failure) is
swallowed and the function returns `(None, None)`. -/
def get_orderflow_snapshot
    (reply : Except PyError (List (ℚ × ℚ) × List (ℚ × ℚ))) :
    Option ℚ × Option ℚ :=
  match reply with
  | .error _ => (none, none)
  | .ok (bids, asks) =>
    let bid_sum := (bids.map (·.2)).sum
    let ask_sum := (asks.map (·.2)).sum
    let delta := bid_sum - ask_sum
    let imb := if bid_sum + ask_sum = 0 then 0
               else bid_sum / (bid_sum + ask_sum) * 100
    (some delta, some imb)

/-- Python's `max(highs)` over a nonempty list; the empty case never
arises where this is used (guarded by the emptiness check). -/
def pymax : List ℚ → ℚ
  | [] => 0
  | h :: t => t.foldl max h

/-- Python's `min(lows)` over a nonempty list. -/
def pymin : List ℚ → ℚ
  | [] => 0
  | h :: t => t.foldl min h

/-- `range_high = max(highs)` over the closed candles. -/
def fakeout_range_high (closed : List Candle) : ℚ :=
  pymax (closed.map (·.high))

/-- `range_low = min(lows)` over the closed candles. -/
def fakeout_range_low (closed : List Candle) : ℚ :=
  pymin (closed.map (·.low))

/-- `avg_vol = (sum(vols) / len(vols)) if vols else 0.0`. -/
def fakeout_avg_vol (closed : List Candle) : ℚ :=
  if closed.isEmpty then 0
  else ((closed.map (·.vol)).sum) / (closed.length : ℚ)

/-- `cond_up` of `detect_fakeout` (the upper-breach branch):
`last.high > range_high and last.close < range_high and
last.vol > avg_vol * VOL_SPIKE_MULT`. -/
def fakeout_cond_up (closed : List Candle) (last : Candle) : Bool :=
  decide (last.high > fakeout_range_high closed) &&
  decide (last.close < fakeout_range_high closed) &&
  decide (last.vol > fakeout_avg_vol closed * VOL_SPIKE_MULT)

/-- `cond_dn` of `detect_fakeout` (the lower-breach branch):
`last.low < range_low and last.close > range_low and
last.vol > avg_vol * VOL_SPIKE_MULT`. -/
def fakeout_cond_dn (closed : List Candle) (last : Candle) : Bool :=
  decide (last.low < fakeout_range_low closed) &&
  decide (last.close > fakeout_range_low closed) &&
  decide (last.vol > fakeout_avg_vol closed * VOL_SPIKE_MULT)

/-- `detect_fakeout`: `candles[-1]` is read before the emptiness check,
so an empty window raises `IndexError`; with `closed = candles[:-1]`
empty (`not highs or not lows`) it returns `False`; otherwise it returns
`cond_up or cond_dn`.  (`highs`/`lows` are empty exactly when `closed`
is.) -/
def detect_fakeout (candles : List Candle) : Except PyError Bool :=
  let closed := candles.dropLast
  match candles.getLast? with
  | none => .error .indexError
  | some last =>
    if closed.isEmpty then .ok false
    else .ok (fakeout_cond_up closed last || fakeout_cond_dn closed last)

/-- `detect_vwap_flip`: split at `mid = len(candles) // 2` (inlined
below), compute the two half VWAPs; if either is `None` return `False`
(before `candles[-1]` is read); else trigger on
`(slope_up and last_close > v2) or (not slope_up and last_close < v2)`
where `slope_up = v2 > v1`.  On a window where both halves had a VWAP
but the window were empty, the `candles[-1]` access would raise
`IndexError` (unreachable, kept for structural fidelity). -/
def detect_vwap_flip (candles : List Candle) : Except PyError Bool :=
  match get_vwap (candles.take (candles.length / 2)),
        get_vwap (candles.drop (candles.length / 2)) with
  | some v1, some v2 =>
    match candles.getLast? with
    | none => .error .indexError
    | some last =>
      .ok ((decide (v2 > v1) && decide (last.close > v2)) ||
           (!decide (v2 > v1) && decide (last.close < v2)))
  | _, _ => .ok false

/-- Stand-in for Python's fixed-point float formatting `f"{x:.2f}"` /
`f"{x:.1f}"` applied to a possibly-`None` value: formatting `None` with
a float format spec raises `TypeError` in CPython; the decimal rendering
of an actual number is abstracted to `toString`. -/
def py_format_float (x : Option ℚ) : Except PyError String :=
  match x with
  | none => .error .typeError
  | some q => .ok (toString q)

/-- The inputs one `check_signals` call consumes: the current wall-clock
minute-of-hour and the three HTTP replies the tick would receive. -/
structure TickInput where
  minute : Nat
  binanceReply : Except PyError (List BinanceRow)
  bybitReply : Except PyError (List BybitRow)
  orderbookReply : Except PyError (List (ℚ × ℚ) × List (ℚ × ℚ))

/-- What the body of the `try` block produced when no exception escaped:
either no alert condition, or a dispatch (print + `send_telegram`) of a
message carrying the two confirmation flags and the formatted order-flow
fields. -/
inductive PipeOutcome where
  | noSignal
  | dispatched (fakeout vwapflip : Bool) (deltaStr imbStr : String)
deriving DecidableEq

/-- Observable result of one `check_signals` call: returned early at the
timing gate (before any fetch or detector call), caught an exception at
the tick boundary (`except` branch: log and skip), or ran to completion
with a `PipeOutcome`. -/
inductive TickResult where
  | gateSkipped
  | errorCaught (e : PyError)
  | ran (o : PipeOutcome)
deriving DecidableEq

/-- Lines 125–126 of the script: per-pattern confluence.
`fakeout = detect_fakeout(bnb) and detect_fakeout(bybt)` and
`vwapflip = detect_vwap_flip(bnb) and detect_vwap_flip(bybt)`, with
Python's short-circuit `and` (the second detector only runs when the
first returned `True`). -/
def confluence (bnb bybt : List Candle) : Except PyError (Bool × Bool) := do
  let fk1 ← detect_fakeout bnb
  let fakeout ← if fk1 then detect_fakeout bybt else pure false
  let vf1 ← detect_vwap_flip bnb
  let vwapflip ← if vf1 then detect_vwap_flip bybt else pure false
  pure (fakeout, vwapflip)

/-- The overall alert condition guarding the dispatch:
`if fakeout or vwapflip:`. -/
def alert_condition (fakeout vwapflip : Bool) : Bool :=
  fakeout || vwapflip

/-- The `try` block of `check_signals`: fetch both exchanges, evaluate
confluence, take the order-flow snapshot, and if the alert condition
holds build the message — formatting `delta` then `imb`, which raises
`TypeError` when the snapshot failed — and dispatch it. -/
def tick_body (inp : TickInput) : Except PyError PipeOutcome := do
  let bnb ← fetch_binance inp.binanceReply
  let bybt ← fetch_bybit inp.bybitReply
  let (fakeout, vwapflip) ← confluence bnb bybt
  let (delta, imb) := get_orderflow_snapshot inp.orderbookReply
  if alert_condition fakeout vwapflip then do
    let dStr ← py_format_float delta
    let iStr ← py_format_float imb
    pure (.dispatched fakeout vwapflip dStr iStr)
  else
    pure .noSignal

/-- `check_signals`: `if now.minute < 50: return` before the `try`
block (no fetch, no detector call, no dispatch); otherwise run the body
with the tick-boundary `except` catching any raised error. -/
def check_signals (inp : TickInput) : TickResult :=
  if inp.minute < 50 then .gateSkipped
  else
    match tick_body inp with
    | .error e => .errorCaught e
    | .ok o => .ran o

/-- Whether a tick result is a dispatch call. -/
def isDispatch : TickResult → Bool
  | .ran (.dispatched _ _ _ _) => true
  | _ => false

/-- Dispatch count over a run of two consecutive poll ticks.  The script
holds no cross-tick state (there is no `lastAlertedCandleClose` or any
other dedup variable in the source), so a two-tick run is just the two
independent evaluations. -/
def twoTickDispatchCount (i1 i2 : TickInput) : Nat :=
  (isDispatch (check_signals i1)).toNat + (isDispatch (check_signals i2)).toNat

/-- Price scaling by `k`: multiply `open`, `high`, `low`, `close` by
`k`, leave `time` and volume unchanged. -/
def scale_prices (k : ℚ) (c : Candle) : Candle :=
  { c with
    opn := k * c.opn
    high := k * c.high
    low := k * c.low
    close := k * c.close }

/-- Closed candle used in concrete scenarios: high 10, low 2, volume 1. -/
def cClosed : Candle :=
  { time := 0, opn := 5, high := 10, low := 2, close := 5, vol := 1 }

/-- Wide final candle breaching both sides of the prior range
(high 11 > 10, low 1 < 2) and closing back inside (close 5), with a
volume spike (10 > 1 * 1.8). -/
def cWide : Candle :=
  { time := 3600, opn := 5, high := 11, low := 1, close := 5, vol := 10 }

/-- A two-candle window on which both detectors trigger. -/
def wFakeout : List Candle := [cClosed, cWide]

/-- The Binance reply rows whose normalization is `wFakeout`
(millisecond open times). -/
def binanceRows : List BinanceRow :=
  [{ t_ms := 0, o := 5, h := 10, l := 2, c := 5, v := 1 },
   { t_ms := 3600000, o := 5, h := 11, l := 1, c := 5, v := 10 }]

/-- The Bybit reply rows (newest first) whose normalization is
`wFakeout`. -/
def bybitRows : List BybitRow :=
  [{ start := 3600, o := 5, h := 11, l := 1, c := 5, v := 10 },
   { start := 0, o := 5, h := 10, l := 2, c := 5, v := 1 }]

/-- A successful order-book reply: one bid of size 2, one ask of
size 1. -/
def okOrderbook : Except PyError (List (ℚ × ℚ) × List (ℚ × ℚ)) :=
  .ok ([(100, 2)], [(100, 1)])

/-- A gated tick (minute 55) in which both candle fetches succeed with
confirming windows and the order-book fetch succeeds. -/
def inpFakeout : TickInput :=
  { minute := 55, binanceReply := .ok binanceRows,
    bybitReply := .ok bybitRows, orderbookReply := okOrderbook }

/-- A gated tick in which both candle fetches succeed with confirming
windows but the order-book fetch raises `NetworkError`. -/
def inpOrderflowFail : TickInput :=
  { minute := 55, binanceReply := .ok binanceRows,
    bybitReply := .ok bybitRows, orderbookReply := .error .networkError }

/-- The single row of a short (one-candle) Binance reply. -/
def binRow0 : BinanceRow := { t_ms := 0, o := 5, h := 10, l := 2, c := 5, v := 1 }

/-- The single row of a short (one-candle) Bybit reply. -/
def bybRow0 : BybitRow := { start := 0, o := 5, h := 10, l := 2, c := 5, v := 1 }

/-- A closed candle carrying zero volume. -/
def cZeroVol : Candle :=
  { time := 0, opn := 5, high := 10, low := 2, close := 5, vol := 0 }

/-- A final candle with nonzero volume 5. -/
def cVol5 : Candle :=
  { time := 3600, opn := 5, high := 10, low := 3, close := 6, vol := 5 }

/-- A tame final candle staying at or below the closed range's high. -/
def cTame : Candle :=
  { time := 3600, opn := 5, high := 9, low := 3, close := 6, vol := 5 }

end SignalBot

namespace SignalBot

/-- Helper: `get_vwap` is `None` exactly on zero total volume. -/
theorem get_vwap_eq_none_iff (candles : List Candle) :
    get_vwap candles = none ↔ total_vol candles = 0 := by
  unfold get_vwap
  split <;> simp_all

/-- Helper: scaling prices leaves every candle's volume unchanged, so
the total volume of a scaled window is that of the original. -/
theorem total_vol_scale (k : ℚ) (candles : List Candle) :
    total_vol (candles.map (scale_prices k)) = total_vol candles := by
  induction candles with
  | nil => rfl
  | cons c t ih =>
    simp only [total_vol, List.map_cons, List.sum_cons] at ih ⊢
    rw [ih]
    simp [scale_prices]

/-- Helper: the volume-weighted typical-price sum scales linearly. -/
theorem total_vp_scale (k : ℚ) (candles : List Candle) :
    total_vp (candles.map (scale_prices k)) = k * total_vp candles := by
  induction candles with
  | nil => simp [total_vp]
  | cons c t ih =>
    simp only [total_vp, List.map_cons, List.sum_cons] at ih ⊢
    rw [ih]
    simp only [scale_prices]
    ring

/-- Helper: `get_vwap` of a price-scaled window is the scaled VWAP
(in particular `None` exactly when the original is `None`). -/
theorem get_vwap_scale (k : ℚ) (candles : List Candle) :
    get_vwap (candles.map (scale_prices k)) =
      (get_vwap candles).map (fun q => k * q) := by
  unfold get_vwap
  rw [total_vol_scale, total_vp_scale]
  split
  · rfl
  · simp [mul_div_assoc]

/-- Helper: on the concrete confirming gated input `inpFakeout` the
tick body runs to a dispatch of both patterns, with order-flow delta 1
and imbalance 200/3 %. -/
theorem tick_body_inpFakeout :
    tick_body inpFakeout =
      .ok (.dispatched true true (toString (1 : ℚ)) (toString ((200 : ℚ) / 3))) := by
  norm_num [tick_body, inpFakeout, fetch_binance, fetch_bybit,
    binanceRows, bybitRows, cClosed, cWide, Except.map, Int.fdiv,
    confluence, detect_fakeout, detect_vwap_flip, get_vwap, total_vol,
    total_vp, fakeout_cond_up, fakeout_cond_dn, fakeout_range_high,
    fakeout_range_low, fakeout_avg_vol, pymax, pymin, VOL_SPIKE_MULT,
    List.dropLast, List.getLast?, get_orderflow_snapshot, okOrderbook,
    py_format_float, alert_condition, Except.bind, bind, pure, Except.pure]

/-- C1 counterexample: the script keeps no `lastAlertedCandleClose`
state (no dedup variable exists in the source), so two consecutive
gated poll ticks whose confirmed result references the same closing
candle — here, two ticks with identical inputs `inpFakeout` — BOTH
produce a dispatch call: the dispatch count over the two-tick run is 2,
not 1 as the claimed suppression would give. -/
theorem c1_counterexample :
    twoTickDispatchCount inpFakeout inpFakeout = 2 := by
  have h := tick_body_inpFakeout
  have hm : inpFakeout.minute = 55 := rfl
  norm_num [twoTickDispatchCount, check_signals, hm, h, isDispatch]

/-- C1 amended: there is no dedup — every gated tick whose pipeline
reaches a confirmed, successfully formatted alert produces a dispatch
call, independent of any earlier tick; in particular, repeating the
same confirmed tick twice in a row yields two dispatch calls. -/
theorem c1_no_dedup (inp : TickInput) (f v : Bool) (d s : String)
    (hm : 50 ≤ inp.minute)
    (hb : tick_body inp = .ok (.dispatched f v d s)) :
    twoTickDispatchCount inp inp = 2 := by
  simp [twoTickDispatchCount, check_signals, if_neg (Nat.not_lt.mpr hm),
    hb, isDispatch]

/-- Witness for C1 at the concrete confirming input `inpFakeout`. -/
theorem c1_no_dedup_witness :
    50 ≤ inpFakeout.minute ∧ twoTickDispatchCount inpFakeout inpFakeout = 2 :=
  ⟨by norm_num [inpFakeout],
   c1_no_dedup inpFakeout true true (toString (1 : ℚ))
     (toString ((200 : ℚ) / 3)) (by norm_num [inpFakeout])
     tick_body_inpFakeout⟩

/-- C2 (code bug): on a gated tick where both candle fetches succeed, a
pattern is confirmed on both exchanges, and the order-book fetch fails,
`get_orderflow_snapshot` degrades to `(None, None)` — but the message
then formats `None` with `:.2f`, raising `TypeError`; the tick-boundary
`except` catches it and the tick is skipped with NO dispatch and no
"unavailable" rendering, contradicting the claimed degradation. -/
theorem c2_orderflow_failure_aborts :
    check_signals inpOrderflowFail = .errorCaught .typeError ∧
      isDispatch (check_signals inpOrderflowFail) = false := by
  have h : tick_body inpOrderflowFail = .error .typeError := by
    norm_num [tick_body, inpOrderflowFail, fetch_binance, fetch_bybit,
      binanceRows, bybitRows, cClosed, cWide, Except.map, Int.fdiv,
      confluence, detect_fakeout, detect_vwap_flip, get_vwap, total_vol,
      total_vp, fakeout_cond_up, fakeout_cond_dn, fakeout_range_high,
      fakeout_range_low, fakeout_avg_vol, pymax, pymin, VOL_SPIKE_MULT,
      List.dropLast, List.getLast?, get_orderflow_snapshot,
      py_format_float, alert_condition, Except.bind, bind, pure,
      Except.pure]
  have hm : inpOrderflowFail.minute = 55 := rfl
  norm_num [check_signals, hm, h, isDispatch]

/-- C3 counterexample: with one closed candle of range [2, 10], the wide
final candle `cWide` (high 11, low 1, close 5, spiking volume) makes the
upper-breach condition and the lower-breach condition of
`detect_fakeout` hold *simultaneously* — the two branches are not
mutually exclusive on a window whose closed portion is nonempty. -/
theorem c3_counterexample :
    ([cClosed] : List Candle) ≠ [] ∧
      fakeout_cond_up [cClosed] cWide = true ∧
      fakeout_cond_dn [cClosed] cWide = true := by
  refine ⟨by simp, ?_, ?_⟩ <;>
    norm_num [fakeout_cond_up, fakeout_cond_dn, fakeout_range_high,
      fakeout_range_low, fakeout_avg_vol, pymax, pymin, cClosed, cWide,
      VOL_SPIKE_MULT]

/-- C3 amended: the bullish and bearish fakeout conditions are mutually
exclusive for every window with a nonempty closed portion *whose last
candle does not breach both sides of the closed range at once* — i.e.
whenever `last.high ≤ rangeHigh` or `last.low ≥ rangeLow`.  (The
counterexample shows a candle breaching both sides can satisfy both.) -/
theorem c3_mutual_exclusion (closed : List Candle) (last : Candle)
    (_hne : closed ≠ [])
    (h : last.high ≤ fakeout_range_high closed ∨
      fakeout_range_low closed ≤ last.low) :
    ¬(fakeout_cond_up closed last = true ∧ fakeout_cond_dn closed last = true) := by
  rintro ⟨hu, hd⟩
  simp only [fakeout_cond_up, fakeout_cond_dn, Bool.and_eq_true,
    decide_eq_true_eq] at hu hd
  rcases h with h | h
  · exact absurd hu.1.1 (not_lt.mpr h)
  · exact absurd hd.1.1 (not_lt.mpr h)

/-- Witness for C3 at `closed = [cClosed]`, `last = cTame`. -/
theorem c3_mutual_exclusion_witness :
    ([cClosed] : List Candle) ≠ [] ∧
      (cTame.high ≤ fakeout_range_high [cClosed] ∨
        fakeout_range_low [cClosed] ≤ cTame.low) ∧
      ¬(fakeout_cond_up [cClosed] cTame = true ∧
        fakeout_cond_dn [cClosed] cTame = true) :=
  ⟨by simp,
   Or.inl (by norm_num [fakeout_range_high, pymax, cClosed, cTame]),
   c3_mutual_exclusion [cClosed] cTame (by simp)
     (Or.inl (by norm_num [fakeout_range_high, pymax, cClosed, cTame]))⟩

/-- C4 counterexample: a parsed reply with a single candle — fewer than
`LOOKBACK + 1 = 25` — is returned by both normalizers as a one-candle
window (`Except.ok`), not rejected with `DataFormatError`: neither
fetcher performs any length validation. -/
theorem c4_counterexample :
    fetch_binance (.ok [binRow0]) = .ok [cClosed] ∧
      fetch_bybit (.ok [bybRow0]) = .ok [cClosed] ∧
      [binRow0].length < LOOKBACK + 1 := by
  refine ⟨?_, ?_, by norm_num [LOOKBACK]⟩ <;>
    norm_num [fetch_binance, fetch_bybit, binRow0, bybRow0, cClosed,
      Except.map, Int.fdiv]

/-- C4 amended: the normalizers perform no length check at all — for
every parsed reply each returns `Except.ok` of a window with exactly as
many candles as the reply has rows, so a reply with fewer than
`lookback+1` candles yields a shorter window rather than an error. -/
theorem c4_no_length_check (j : List BinanceRow) (j' : List BybitRow) :
    (∃ w, fetch_binance (.ok j) = .ok w ∧ w.length = j.length) ∧
      (∃ w, fetch_bybit (.ok j') = .ok w ∧ w.length = j'.length) := by
  constructor
  · exact ⟨_, rfl, by simp [List.length_map]⟩
  · exact ⟨_, rfl, by simp [List.length_map, List.length_reverse]⟩

/-- C5 counterexample: with a zero average-volume baseline the volume
condition `last.vol > avg_vol * VOL_SPIKE_MULT` is *satisfied* by a last
candle of nonzero volume 5 — refuting the claim that it is
"unsatisfiable unless the last candle's volume is also zero." -/
theorem c5_counterexample :
    fakeout_avg_vol [cZeroVol] = 0 ∧ cVol5.vol ≠ 0 ∧
      cVol5.vol > fakeout_avg_vol [cZeroVol] * VOL_SPIKE_MULT := by
  norm_num [fakeout_avg_vol, cZeroVol, cVol5, VOL_SPIKE_MULT]

/-- C5 amended: when the closed candles' average volume is zero, the
volume condition `last.vol > avg_vol * VOL_SPIKE_MULT` holds exactly
when the last candle's volume is positive (it fails exactly when the
volume is ≤ 0); and the code handles this case through the same direct
comparison — for a nonempty closed portion `detect_fakeout` still
returns `cond_up or cond_dn` with no special case forcing `False`. -/
theorem c5_zero_baseline (closed : List Candle) (last : Candle)
    (hne : closed ≠ []) (havg : fakeout_avg_vol closed = 0) :
    (last.vol > fakeout_avg_vol closed * VOL_SPIKE_MULT ↔ 0 < last.vol) ∧
      detect_fakeout (closed ++ [last]) =
        .ok (fakeout_cond_up closed last || fakeout_cond_dn closed last) := by
  constructor
  · rw [havg, zero_mul]
  · rw [detect_fakeout]
    simp only [List.dropLast_concat, List.getLast?_concat]
    rw [if_neg (by simpa using hne)]

/-- Witness for C5 at `closed = [cZeroVol]`, `last = cVol5`. -/
theorem c5_zero_baseline_witness :
    ([cZeroVol] : List Candle) ≠ [] ∧ fakeout_avg_vol [cZeroVol] = 0 ∧
      ((cVol5.vol > fakeout_avg_vol [cZeroVol] * VOL_SPIKE_MULT ↔ 0 < cVol5.vol) ∧
        detect_fakeout ([cZeroVol] ++ [cVol5]) =
          .ok (fakeout_cond_up [cZeroVol] cVol5 || fakeout_cond_dn [cZeroVol] cVol5)) :=
  ⟨by simp, by norm_num [fakeout_avg_vol, cZeroVol],
   c5_zero_baseline [cZeroVol] cVol5 (by simp)
     (by norm_num [fakeout_avg_vol, cZeroVol])⟩

/-- C6: whenever the four detector calls return without raising, the
confluence of lines 125–126 confirms a pattern exactly as the logical
AND of that pattern's two per-exchange results, the overall alert
condition is the logical OR of the two confirmed flags, and one
exchange triggering alone never confirms (`a && b` is `true` only when
both are). -/
theorem c6_confluence (bnb bybt : List Candle) (a b c d : Bool)
    (h1 : detect_fakeout bnb = .ok a) (h2 : detect_fakeout bybt = .ok b)
    (h3 : detect_vwap_flip bnb = .ok c) (h4 : detect_vwap_flip bybt = .ok d) :
    confluence bnb bybt = .ok (a && b, c && d) ∧
      alert_condition (a && b) (c && d) = ((a && b) || (c && d)) ∧
      ((a && b) = true ↔ (a = true ∧ b = true)) := by
  refine ⟨?_, rfl, by simp⟩
  cases a <;> cases c <;>
    simp [confluence, h1, h2, h3, h4, Except.bind, bind, pure, Except.pure]

/-- Witness for C6 with both exchanges' windows equal to `wFakeout`, on
which both detectors trigger. -/
theorem c6_confluence_witness :
    confluence wFakeout wFakeout = .ok (true && true, true && true) ∧
      alert_condition (true && true) (true && true) =
        ((true && true) || (true && true)) ∧
      ((true && true) = true ↔ (true = true ∧ true = true)) :=
  c6_confluence wFakeout wFakeout true true true true
    (by norm_num [detect_fakeout, wFakeout, cClosed, cWide, fakeout_cond_up,
      fakeout_cond_dn, fakeout_range_high, fakeout_range_low,
      fakeout_avg_vol, pymax, pymin, VOL_SPIKE_MULT, List.dropLast,
      List.getLast?])
    (by norm_num [detect_fakeout, wFakeout, cClosed, cWide, fakeout_cond_up,
      fakeout_cond_dn, fakeout_range_high, fakeout_range_low,
      fakeout_avg_vol, pymax, pymin, VOL_SPIKE_MULT, List.dropLast,
      List.getLast?])
    (by norm_num [detect_vwap_flip, wFakeout, cClosed, cWide, get_vwap,
      total_vol, total_vp, List.getLast?])
    (by norm_num [detect_vwap_flip, wFakeout, cClosed, cWide, get_vwap,
      total_vol, total_vp, List.getLast?])

/-- C7: the timing gate — `check_signals` returns before any fetch,
detector call or dispatch (result `gateSkipped`) exactly for wall-clock
minutes 0–49, and runs the pipeline body for minutes 50–59 (and any
minute ≥ 50); in particular the gate is closed at minute 49 and open at
minute 50. -/
theorem c7_timing_gate (inp : TickInput) :
    check_signals inp = .gateSkipped ↔ inp.minute < 50 := by
  unfold check_signals
  split
  · simp_all
  · rcases h : tick_body inp with e | o <;> simp_all

/-- C8: the VWAP-Flip Detector is invariant to the absolute price
scale — multiplying every price field of every candle in the window by
a positive constant `k` leaves its outcome (including a raised
`IndexError` in the unreachable empty-window branch) unchanged. -/
theorem c8_vwap_flip_scale_invariant (k : ℚ) (candles : List Candle)
    (hk : 0 < k) :
    detect_vwap_flip (candles.map (scale_prices k)) =
      detect_vwap_flip candles := by
  unfold detect_vwap_flip
  rw [List.length_map, ← List.map_take, ← List.map_drop,
    get_vwap_scale, get_vwap_scale, List.getLast?_map]
  rcases h1 : get_vwap (candles.take (candles.length / 2)) with _ | v1 <;>
    rcases h2 : get_vwap (candles.drop (candles.length / 2)) with _ | v2 <;>
    simp only [Option.map]
  rcases h3 : candles.getLast? with _ | last
  · rfl
  · simp only [Option.map]
    have e1 : decide (k * v2 > k * v1) = decide (v2 > v1) :=
      decide_eq_decide.mpr (mul_lt_mul_left hk)
    have e2 : decide ((scale_prices k last).close > k * v2) =
        decide (last.close > v2) := by
      simp only [scale_prices]
      exact decide_eq_decide.mpr (mul_lt_mul_left hk)
    have e3 : decide ((scale_prices k last).close < k * v2) =
        decide (last.close < v2) := by
      simp only [scale_prices]
      exact decide_eq_decide.mpr (mul_lt_mul_left hk)
    rw [e1, e2, e3]

/-- Witness for C8 at `k = 2` on the window `wFakeout`. -/
theorem c8_witness :
    (0 : ℚ) < 2 ∧
      detect_vwap_flip (wFakeout.map (scale_prices 2)) =
        detect_vwap_flip wFakeout :=
  ⟨by norm_num, c8_vwap_flip_scale_invariant 2 wFakeout (by norm_num)⟩

/-- C9: for every candle window whose total volume is zero, `get_vwap`
returns Python's `None` (the distinguished "undefined" value) — and
conversely it returns `None` only in that case, so the division
`tot_vp / tot_vol` is evaluated only under a nonzero denominator. -/
theorem c9_vwap_zero_volume_undefined (candles : List Candle) :
    get_vwap candles = none ↔ total_vol candles = 0 := by
  unfold get_vwap
  split <;> simp_all

/-- C10: whenever the window has length at most 1 (so the midpoint split
makes the first half empty), or more generally whenever either half of
the midpoint split has zero total volume, `detect_vwap_flip` returns
`False` without raising any error: the `None` half-VWAP short-circuits
to not-triggered before `candles[-1]` is ever read. -/
theorem c10_vwap_flip_degenerate_false (candles : List Candle)
    (h : candles.length ≤ 1 ∨
      total_vol (candles.take (candles.length / 2)) = 0 ∨
      total_vol (candles.drop (candles.length / 2)) = 0) :
    detect_vwap_flip candles = .ok false := by
  have h' : total_vol (candles.take (candles.length / 2)) = 0 ∨
      total_vol (candles.drop (candles.length / 2)) = 0 := by
    rcases h with h | h | h
    · left
      have hm : candles.length / 2 = 0 := by omega
      rw [hm]
      simp [total_vol]
    · exact Or.inl h
    · exact Or.inr h
  rcases h' with h' | h'
  · have h1 : get_vwap (candles.take (candles.length / 2)) = none :=
      (get_vwap_eq_none_iff _).mpr h'
    rcases h2 : get_vwap (candles.drop (candles.length / 2)) with _ | v2 <;>
      simp [detect_vwap_flip, h1, h2]
  · have h2 : get_vwap (candles.drop (candles.length / 2)) = none :=
      (get_vwap_eq_none_iff _).mpr h'
    rcases h1 : get_vwap (candles.take (candles.length / 2)) with _ | v1 <;>
      simp [detect_vwap_flip, h1, h2]

/-- Witness for C10 at the one-candle window `[cWide]`. -/
theorem c10_witness :
    ([cWide] : List Candle).length ≤ 1 ∧
      detect_vwap_flip [cWide] = .ok false :=
  ⟨by norm_num,
   c10_vwap_flip_degenerate_false [cWide] (Or.inl (by norm_num))⟩

end SignalBot
